import Mathlib

/-!
TCPClient wrapper (`src/node_tcp.cc`).

A shallow embedding of the TCP client wrapper.  The wrapper owns one native
socket and one host object (`js_client`).  Everything the wrapper does is a
call on a collaborator (the socket library, the address resolver, the host
object, the fatal-exception sink), so the state of a client is the two host
properties the wrapper touches (`readyState`, `onopen`) together with the
ordered log of collaborator calls it has made.

Results of collaborator calls that the wrapper branches on (resolution and
connect return codes, string conversion, what a host callback does) are
supplied by a `Host` record.
-/

namespace NodeTcp

/-! ## Data model -/

/-- Enumerator `READY_STATE_CONNECTING = 0` of `enum readyState`. -/
def READY_STATE_CONNECTING : Nat := 0

/-- Enumerator `READY_STATE_OPEN = 1` of `enum readyState`. -/
def READY_STATE_OPEN : Nat := 1

/-- Enumerator `READY_STATE_CLOSED = 2` of `enum readyState`. -/
def READY_STATE_CLOSED : Nat := 2

/-- Host values, as far as the wrapper can tell them apart.  Strings are lists
of character codes; functions and objects are known by identity. -/
inductive JsValue where
  | undefined
  | null
  | boolean (b : Bool)
  | integer (n : Int)
  | string (chars : List Nat)
  | function (id : Nat)
  | object (id : Nat)
deriving DecidableEq, Repr

/-- Values of `IsFunction()`. -/
def JsValue.IsFunction : JsValue → Bool
  | .function _ => true
  | _ => false

/-- The persistent integer `readyState_CONNECTING`, created in `Init_tcp` from
`READY_STATE_CONNECTING`. -/
def readyState_CONNECTING : JsValue := .integer (Int.ofNat READY_STATE_CONNECTING)

/-- The persistent integer `readyState_OPEN`, created in `Init_tcp` from
`READY_STATE_OPEN`. -/
def readyState_OPEN : JsValue := .integer (Int.ofNat READY_STATE_OPEN)

/-- The persistent integer `readyState_CLOSED`, created in `Init_tcp` from
`READY_STATE_CLOSED`. -/
def readyState_CLOSED : JsValue := .integer (Int.ofNat READY_STATE_CLOSED)

/-- One call made by the wrapper on a collaborator, named after the callee.
`Set_readyState v` is `js_client->Set(readyState_str, v)` with `v` one of the
three persistent integers; `Call f receiver argc` is
`onopen->Call(receiver, argc, NULL)`. -/
inductive Effect where
  | oi_socket_init (timeout : Nat)
  | SetInternalField (index : Nat)
  | MakeWeak (obj : Nat)
  | Set_readyState (v : Nat)
  | printf (host port : List Nat)
  | getaddrinfo (host port : List Nat)
  | perror (what : String)
  | oi_socket_connect
  | oi_socket_attach
  | freeaddrinfo
  | oi_socket_write_eof
  | oi_buf_new2 (len : Nat)
  | oi_socket_write (buf : List Nat)
  | oi_socket_close
  | oi_socket_detach
  | Dispose
  | Clear
  | Call (f : Nat) (receiver : Nat) (argc : Nat)
  | node_fatal_exception
deriving DecidableEq, Repr

/-- A `TCPClient` together with the part of its host object the wrapper reads
or writes.  `js_client` is the identity of the host object, `readyState` and
`onopen` are that object's properties, `log` is every collaborator call made on
behalf of this client, oldest first. -/
structure TCPClient where
  js_client : Nat
  readyState : JsValue
  onopen : JsValue
  log : List Effect
deriving DecidableEq, Repr

/-- The two methods `Init_tcp` installs on the instance template; host code
running inside a callback can reach the wrapper only through them. -/
inductive Method where
  | write (arg : JsValue)
  | disconnect
deriving DecidableEq, Repr

/-- What one run of a host function did, as seen from this client: the values
it left in the two properties, the wrapper methods it called on the handle (in
order), and whether it ended by throwing. -/
structure CallResult where
  readyState : JsValue
  onopen : JsValue
  methods : List Method
  HasCaught : Bool
deriving DecidableEq, Repr

/-- Collaborator behaviour the wrapper depends on.
* `getaddrinfo host port` and `oi_socket_connect host port` are the return
  codes of the resolver and of the native connect for that address;
* `fallthrough` is the value the caller of `TCPClient::Connect` reads when
  control reaches the closing brace of that `int` function, which has no
  `return` statement on that path;
* `ToString` converts a non-string host value to text;
* `AsciiValue` is the engine's `String::AsciiValue` conversion, which the
  constructor applies to its two arguments;
* `Call f c` runs host function `f` with the handle of `c` as receiver. -/
structure Host where
  getaddrinfo : List Nat → List Nat → Int
  oi_socket_connect : List Nat → List Nat → Int
  fallthrough : Int
  ToString : JsValue → List Nat
  AsciiValue : JsValue → List Nat
  Call : Nat → TCPClient → CallResult

/-- The host object handed to the constructor as `args.This()`. -/
structure JsObject where
  id : Nat
  readyState : JsValue
  onopen : JsValue
deriving DecidableEq, Repr

/-- The `Arguments` of a host call: receiver and positional arguments. -/
structure Arguments where
  This : JsObject
  args : List JsValue
deriving DecidableEq, Repr

/-- Length of the positional arguments, `args.Length()`. -/
def Arguments.Length (a : Arguments) : Nat := a.args.length

/-- Positional argument `args[i]`; out of range reads give `undefined`. -/
def Arguments.get (a : Arguments) (i : Nat) : JsValue := a.args.getD i .undefined

/-! ## Absent helpers -/

/-- Modelled from the spec: `oi_buf_new2` of the socket library is not among
the sources; the spec asks for adapter-owned storage separate from the caller's
buffer, so it yields a fresh buffer of `len` bytes (zero-filled here). -/
def oi_buf_new2 (len : Nat) : List Nat := List.replicate len 0

/-- Modelled from the spec: `String::WriteAscii` of the engine is not among the
sources; the spec says the payload bytes are copied at call time, so it copies
up to `length` characters of `s`, starting at `start`, to the front of
`buffer`, each narrowed to one byte, and leaves the rest of `buffer` alone. -/
def WriteAscii (s : List Nat) (buffer : List Nat) (start length : Nat) : List Nat :=
  let chunk := ((s.drop start).take length).map (fun ch => ch % 256)
  chunk ++ buffer.drop chunk.length

/-- Conversion `arg->ToString()`: a string is its own conversion, every other
value is converted by the host. -/
def ToString (h : Host) : JsValue → List Nat
  | .string s => s
  | v => h.ToString v

/-! ## The wrapper -/

/-- Record one collaborator call. -/
def TCPClient.emit (c : TCPClient) (e : Effect) : TCPClient :=
  { c with log := c.log ++ [e] }

/-- Assignment `js_client->Set(readyState_str, v)` for one of the persistent
integers `v = .integer n`. -/
def TCPClient.Set_readyState (c : TCPClient) (n : Nat) : TCPClient :=
  { c with readyState := .integer (Int.ofNat n), log := c.log ++ [.Set_readyState n] }

/-- Constructor `TCPClient::TCPClient`: initialises the socket with the 30
second timeout, stores the client in internal field 0 of the host object and
makes the handle to that object weak.  The assignments to the callback fields
of the socket (`on_connect` set, the others `NULL`) are not calls and leave no
entry in the log. -/
def TCPClient.new (obj : JsObject) : TCPClient :=
  { js_client := obj.id
    readyState := obj.readyState
    onopen := obj.onopen
    log := [.oi_socket_init 30, .SetInternalField 0, .MakeWeak obj.id] }

/-- Method `TCPClient::Connect`.  Returns the value its caller reads, with the
client. -/
def TCPClient.Connect (h : Host) (c : TCPClient) (host port : List Nat) : Int × TCPClient :=
  let c := c.Set_readyState READY_STATE_CONNECTING
  let c := c.emit (.printf host port)
  let c := c.emit (.getaddrinfo host port)
  let r := h.getaddrinfo host port
  if r ≠ 0 then
    (r, c.emit (.perror "getaddrinfo"))
  else
    let c := c.emit .oi_socket_connect
    let r := h.oi_socket_connect host port
    if r ≠ 0 then
      (r, c.emit (.perror "oi_socket_connect"))
    else
      let c := c.emit .oi_socket_attach
      let c := c.emit .freeaddrinfo
      (h.fallthrough, c)

/-- Method `TCPClient::Write`. -/
def TCPClient.Write (h : Host) (c : TCPClient) (arg : JsValue) : TCPClient :=
  if arg = JsValue.null then
    c.emit .oi_socket_write_eof
  else
    let s := ToString h arg
    let buf := oi_buf_new2 s.length
    let c := c.emit (.oi_buf_new2 s.length)
    let buf := WriteAscii s buf 0 s.length
    c.emit (.oi_socket_write buf)

/-- Method `TCPClient::Disconnect`. -/
def TCPClient.Disconnect (c : TCPClient) : TCPClient :=
  c.emit .oi_socket_close

/-- Destructor `TCPClient::~TCPClient`. -/
def TCPClient.destructor (c : TCPClient) : TCPClient :=
  let c := c.Disconnect
  let c := c.emit .oi_socket_detach
  let c := c.emit .Dispose
  c.emit .Clear

/-- Wrapper methods called by host code from inside a callback, in order. -/
def TCPClient.reenter (h : Host) (c : TCPClient) : List Method → TCPClient
  | [] => c
  | .write arg :: ms => TCPClient.reenter h (c.Write h arg) ms
  | .disconnect :: ms => TCPClient.reenter h c.Disconnect ms

/-- State in which the host function `f` starts when `TCPClient::OnOpen` calls
it: `readyState` has been assigned and the call has been made. -/
def TCPClient.entered (c : TCPClient) (f : Nat) : TCPClient :=
  (c.Set_readyState READY_STATE_OPEN).emit (.Call f c.js_client 0)

/-- Method `TCPClient::OnOpen`. -/
def TCPClient.OnOpen (h : Host) (c : TCPClient) : TCPClient :=
  let c := c.Set_readyState READY_STATE_OPEN
  match c.onopen with
  | .function f =>
    let c := c.emit (.Call f c.js_client 0)
    let r := h.Call f c
    let c := TCPClient.reenter h { c with readyState := r.readyState, onopen := r.onopen } r.methods
    if r.HasCaught then c.emit .node_fatal_exception else c
  | _ => c

/-- Socket callback `on_connect`. -/
def on_connect (h : Host) (c : TCPClient) : TCPClient :=
  c.OnOpen h

/-- Host entry point `newTCPClient`.  Returns the value handed back to the host
and the client, if one was created.  The test `client == NULL` after `new` has
no counterpart: `new` does not yield a null pointer. -/
def newTCPClient (h : Host) (args : Arguments) : JsValue × Option TCPClient :=
  if args.Length < 1 then
    (.undefined, none)
  else
    let host := h.AsciiValue (args.get 0)
    let port := h.AsciiValue (args.get 1)
    let client := TCPClient.new args.This
    let (r, client) := client.Connect h host port
    if r ≠ 0 then
      (.undefined, some client)
    else
      (.object args.This.id, some client)

/-- Host entry point `WriteCallback`. -/
def WriteCallback (h : Host) (c : TCPClient) (args : List JsValue) : JsValue × TCPClient :=
  (.undefined, c.Write h (args.getD 0 .undefined))

/-- Host entry point `DisconnectCallback`. -/
def DisconnectCallback (c : TCPClient) : JsValue × TCPClient :=
  (.undefined, c.Disconnect)

/-- Weak-handle callback `client_destroy`. -/
def client_destroy (c : TCPClient) : TCPClient :=
  c.destructor

/-! ## Runs -/

/-- What can happen to a client after construction: the socket delivers the
connect event, host code calls `write` or `disconnect`, the collector finalizes
the handle, or host code assigns one of the two properties.  No order is
imposed on the steps, so every order the wrapper can meet is among the runs. -/
inductive Step where
  | connect
  | write (arg : JsValue)
  | disconnect
  | finalize
  | assign_onopen (v : JsValue)
  | assign_readyState (v : JsValue)
deriving DecidableEq, Repr

/-- One step of a run. -/
def step (h : Host) (c : TCPClient) : Step → TCPClient
  | .connect => on_connect h c
  | .write arg => (WriteCallback h c [arg]).2
  | .disconnect => (DisconnectCallback c).2
  | .finalize => client_destroy c
  | .assign_onopen v => { c with onopen := v }
  | .assign_readyState v => { c with readyState := v }

/-- A run: the steps applied first to last. -/
def run (h : Host) (c : TCPClient) (steps : List Step) : TCPClient :=
  steps.foldl (step h) c

/-! ## Observations on the log -/

/-- Number of `oi_socket_close` calls in a log. -/
def closeCount (log : List Effect) : Nat :=
  log.count .oi_socket_close

/-- Number of `node_fatal_exception` calls in a log. -/
def fatalCount (log : List Effect) : Nat :=
  log.count .node_fatal_exception

/-- Whether a log entry is a call of a host function. -/
def Effect.isCall : Effect → Bool
  | .Call _ _ _ => true
  | _ => false

/-- Number of host function calls in a log. -/
def callCount (log : List Effect) : Nat :=
  log.countP Effect.isCall

/-- The `readyState` values assigned by the wrapper, oldest first. -/
def written : List Effect → List Nat
  | [] => []
  | .Set_readyState v :: es => v :: written es
  | _ :: es => written es

/-- A request handed to the native socket. -/
inductive Request where
  | payload (bytes : List Nat)
  | eof
  | close
deriving DecidableEq, Repr

/-- The request a log entry hands to the native socket, if it is one. -/
def Effect.request : Effect → Option Request
  | .oi_socket_write buf => some (.payload buf)
  | .oi_socket_write_eof => some .eof
  | .oi_socket_close => some .close
  | _ => none

/-- The requests handed to the native socket, oldest first. -/
def requests (log : List Effect) : List Request :=
  log.filterMap Effect.request

/-! ## Sample inputs -/

/-- A host on which resolution and connect succeed, the fall-through value of
`Connect` happens to be zero, and host functions do nothing. -/
def quietHost : Host :=
  { getaddrinfo := fun _ _ => 0
    oi_socket_connect := fun _ _ => 0
    fallthrough := 0
    ToString := fun _ => []
    AsciiValue := fun v => match v with
      | .string s => s
      | _ => []
    Call := fun _ c =>
      { readyState := c.readyState, onopen := c.onopen, methods := [], HasCaught := false } }

/-- A host like `quietHost` whose functions write the text "PING", disconnect
and then throw. -/
def throwingHost : Host :=
  { quietHost with
    Call := fun _ c =>
      { readyState := c.readyState, onopen := c.onopen
        methods := [.write (.string [80, 73, 78, 71]), .disconnect], HasCaught := true } }

/-- A host like `quietHost` on which the fall-through value of `Connect` is
not zero. -/
def residueHost : Host :=
  { quietHost with fallthrough := 1 }

/-- A host on which no name resolves (`getaddrinfo` gives `EAI_NONAME`). -/
def unresolvableHost : Host :=
  { quietHost with getaddrinfo := fun _ _ => -2 }

/-- A host on which names resolve and the native connect fails. -/
def refusingHost : Host :=
  { quietHost with oi_socket_connect := fun _ _ => -1 }

/-- A fresh host object with identity 1 whose `onopen` is host function 7. -/
def sampleObject : JsObject :=
  { id := 1, readyState := .undefined, onopen := .function 7 }

/-- The call `new TCPClient("localhost", "80")` on `sampleObject`. -/
def sampleArgs : Arguments :=
  { This := sampleObject
    args := [.string [108, 111, 99, 97, 108, 104, 111, 115, 116], .string [56, 48]] }

/-- The client that `newTCPClient quietHost sampleArgs` creates. -/
def connectingClient : TCPClient :=
  { js_client := 1
    readyState := .integer 0
    onopen := .function 7
    log := [.oi_socket_init 30, .SetInternalField 0, .MakeWeak 1, .Set_readyState 0,
            .printf [108, 111, 99, 97, 108, 104, 111, 115, 116] [56, 48],
            .getaddrinfo [108, 111, 99, 97, 108, 104, 111, 115, 116] [56, 48],
            .oi_socket_connect, .oi_socket_attach, .freeaddrinfo] }

/-! ## Basic facts about the log -/

theorem emit_log (c : TCPClient) (e : Effect) : (c.emit e).log = c.log ++ [e] := rfl

theorem written_append (a b : List Effect) : written (a ++ b) = written a ++ written b := by
  induction a with
  | nil => rfl
  | cons e es ih => cases e <;> simp [written, ih]

theorem callCount_append (a b : List Effect) : callCount (a ++ b) = callCount a + callCount b := by
  simp [callCount]

theorem fatalCount_append (a b : List Effect) :
    fatalCount (a ++ b) = fatalCount a + fatalCount b := by
  simp [fatalCount]

theorem closeCount_append (a b : List Effect) :
    closeCount (a ++ b) = closeCount a + closeCount b := by
  simp [closeCount]

theorem requests_append (a b : List Effect) : requests (a ++ b) = requests a ++ requests b := by
  simp [requests]

/-- The payload of `WriteAscii` into a buffer made for the whole string: one
byte per character. -/
theorem WriteAscii_whole (s : List Nat) :
    WriteAscii s (oi_buf_new2 s.length) 0 s.length = s.map (fun ch => ch % 256) := by
  simp [WriteAscii, oi_buf_new2]

/-- The log of `Write`: one request, preceded by the allocation when the
argument is not `null`. -/
theorem Write_log (h : Host) (c : TCPClient) (arg : JsValue) :
    (c.Write h arg).log = c.log ++
      (if arg = JsValue.null then [Effect.oi_socket_write_eof]
       else [Effect.oi_buf_new2 (ToString h arg).length,
             Effect.oi_socket_write ((ToString h arg).map (fun ch => ch % 256))]) := by
  unfold TCPClient.Write
  split
  · simp [TCPClient.emit]
  · simp [TCPClient.emit, WriteAscii_whole]

theorem Write_props (h : Host) (c : TCPClient) (arg : JsValue) :
    (c.Write h arg).js_client = c.js_client ∧ (c.Write h arg).readyState = c.readyState
      ∧ (c.Write h arg).onopen = c.onopen := by
  unfold TCPClient.Write
  split <;> simp [TCPClient.emit]

theorem Disconnect_log (c : TCPClient) : c.Disconnect.log = c.log ++ [Effect.oi_socket_close] := rfl

theorem Disconnect_props (c : TCPClient) :
    c.Disconnect.js_client = c.js_client ∧ c.Disconnect.readyState = c.readyState
      ∧ c.Disconnect.onopen = c.onopen := ⟨rfl, rfl, rfl⟩

theorem destructor_log (c : TCPClient) :
    c.destructor.log = c.log ++
      [Effect.oi_socket_close, Effect.oi_socket_detach, Effect.Dispose, Effect.Clear] := by
  simp [TCPClient.destructor, TCPClient.Disconnect, TCPClient.emit]

/-- Methods called from inside a callback only add socket requests to the log:
no host call, no fatal report, no assignment of `readyState`. -/
theorem reenter_log (h : Host) (ms : List Method) (c : TCPClient) :
    ∃ t, (TCPClient.reenter h c ms).log = c.log ++ t ∧ callCount t = 0 ∧ fatalCount t = 0
      ∧ written t = [] := by
  induction ms generalizing c with
  | nil => exact ⟨[], by simp [TCPClient.reenter], rfl, rfl, rfl⟩
  | cons m ms ih =>
    cases m with
    | write arg =>
      obtain ⟨t, ht, h1, h2, h3⟩ := ih (c.Write h arg)
      refine ⟨(if arg = JsValue.null then [Effect.oi_socket_write_eof]
        else [Effect.oi_buf_new2 (ToString h arg).length,
              Effect.oi_socket_write ((ToString h arg).map (fun ch => ch % 256))]) ++ t,
        ?_, ?_, ?_, ?_⟩
      · rw [TCPClient.reenter, ht, Write_log, List.append_assoc]
      · rw [callCount_append, h1]; split <;> rfl
      · rw [fatalCount_append, h2]; split <;> rfl
      · rw [written_append, h3]; split <;> rfl
    | disconnect =>
      obtain ⟨t, ht, h1, h2, h3⟩ := ih c.Disconnect
      refine ⟨[Effect.oi_socket_close] ++ t, ?_, ?_, ?_, ?_⟩
      · rw [TCPClient.reenter, ht, Disconnect_log, List.append_assoc]
      · rw [callCount_append, h1]; rfl
      · rw [fatalCount_append, h2]; rfl
      · rw [written_append, h3]; rfl

theorem reenter_props (h : Host) (ms : List Method) (c : TCPClient) :
    (TCPClient.reenter h c ms).js_client = c.js_client
      ∧ (TCPClient.reenter h c ms).readyState = c.readyState
      ∧ (TCPClient.reenter h c ms).onopen = c.onopen := by
  induction ms generalizing c with
  | nil => exact ⟨rfl, rfl, rfl⟩
  | cons m ms ih =>
    cases m with
    | write arg =>
      obtain ⟨h1, h2, h3⟩ := ih (c.Write h arg)
      obtain ⟨w1, w2, w3⟩ := Write_props h c arg
      exact ⟨by rw [TCPClient.reenter, h1, w1], by rw [TCPClient.reenter, h2, w2],
        by rw [TCPClient.reenter, h3, w3]⟩
    | disconnect =>
      obtain ⟨h1, h2, h3⟩ := ih c.Disconnect
      exact ⟨by rw [TCPClient.reenter, h1]; rfl, by rw [TCPClient.reenter, h2]; rfl,
        by rw [TCPClient.reenter, h3]; rfl⟩

theorem run_append (h : Host) (c : TCPClient) (xs ys : List Step) :
    run h c (xs ++ ys) = run h (run h c xs) ys := by
  simp [run, List.foldl_append]

theorem run_cons (h : Host) (c : TCPClient) (x : Step) (xs : List Step) :
    run h c (x :: xs) = run h (step h c x) xs := rfl

/-! ## The connect event -/

theorem OnOpen_not_function (h : Host) (c : TCPClient) (hf : c.onopen.IsFunction = false) :
    c.OnOpen h = c.Set_readyState READY_STATE_OPEN := by
  unfold TCPClient.OnOpen
  cases hc : c.onopen <;> simp_all [TCPClient.Set_readyState, JsValue.IsFunction]

/-- Unfolding of `OnOpen` when `onopen` is the function `f`. -/
theorem OnOpen_function (h : Host) (c : TCPClient) (f : Nat)
    (hf : c.onopen = JsValue.function f) :
    c.OnOpen h =
      if (h.Call f (c.entered f)).HasCaught then
        (TCPClient.reenter h
          { c.entered f with readyState := (h.Call f (c.entered f)).readyState,
                             onopen := (h.Call f (c.entered f)).onopen }
          (h.Call f (c.entered f)).methods).emit Effect.node_fatal_exception
      else
        TCPClient.reenter h
          { c.entered f with readyState := (h.Call f (c.entered f)).readyState,
                             onopen := (h.Call f (c.entered f)).onopen }
          (h.Call f (c.entered f)).methods := by
  have h1 : (c.Set_readyState READY_STATE_OPEN).onopen = JsValue.function f := hf
  unfold TCPClient.OnOpen
  simp only [h1]
  rfl

theorem entered_log (c : TCPClient) (f : Nat) :
    (c.entered f).log
      = c.log ++ [Effect.Set_readyState READY_STATE_OPEN, Effect.Call f c.js_client 0] := by
  simp [TCPClient.entered, TCPClient.emit, TCPClient.Set_readyState]

/-- The log of `OnOpen` when `onopen` is the function `f`: the assignment, the
call, the socket requests of the callback, and the fatal report if it threw. -/
theorem OnOpen_function_log (h : Host) (c : TCPClient) (f : Nat)
    (hf : c.onopen = JsValue.function f) :
    ∃ t, (c.OnOpen h).log = c.log
        ++ [Effect.Set_readyState READY_STATE_OPEN, Effect.Call f c.js_client 0] ++ t
        ++ (if (h.Call f (c.entered f)).HasCaught then [Effect.node_fatal_exception] else [])
      ∧ callCount t = 0 ∧ fatalCount t = 0 ∧ written t = [] := by
  obtain ⟨t, ht, h1, h2, h3⟩ := reenter_log h (h.Call f (c.entered f)).methods
    { c.entered f with readyState := (h.Call f (c.entered f)).readyState,
                       onopen := (h.Call f (c.entered f)).onopen }
  refine ⟨t, ?_, h1, h2, h3⟩
  rw [OnOpen_function h c f hf]
  split
  · rw [emit_log, ht, entered_log]
  · rw [ht, entered_log, List.append_nil]

/-- The properties after `OnOpen` when `onopen` is the function `f` are those
the callback left. -/
theorem OnOpen_function_props (h : Host) (c : TCPClient) (f : Nat)
    (hf : c.onopen = JsValue.function f) :
    (c.OnOpen h).js_client = c.js_client
      ∧ (c.OnOpen h).readyState = (h.Call f (c.entered f)).readyState
      ∧ (c.OnOpen h).onopen = (h.Call f (c.entered f)).onopen := by
  obtain ⟨p1, p2, p3⟩ := reenter_props h (h.Call f (c.entered f)).methods
    { c.entered f with readyState := (h.Call f (c.entered f)).readyState,
                       onopen := (h.Call f (c.entered f)).onopen }
  rw [OnOpen_function h c f hf]
  split
  · exact ⟨p1, p2, p3⟩
  · exact ⟨p1, p2, p3⟩

/-- Every step only appends to the log; what it appends assigns `readyState`
at most once, and then to `READY_STATE_OPEN`, and calls a host function only on
a connect event, and then at most once. -/
theorem step_log (h : Host) (c : TCPClient) (s : Step) :
    ∃ t, (step h c s).log = c.log ++ t
      ∧ (written t = [] ∨ written t = [READY_STATE_OPEN])
      ∧ callCount t ≤ (if s = Step.connect then 1 else 0) := by
  cases s with
  | connect =>
    cases hc : c.onopen with
    | function f =>
      obtain ⟨t, ht, h1, _, h3⟩ := OnOpen_function_log h c f hc
      refine ⟨[Effect.Set_readyState READY_STATE_OPEN, Effect.Call f c.js_client 0] ++ t
        ++ (if (h.Call f (c.entered f)).HasCaught then [Effect.node_fatal_exception] else []),
        ?_, ?_, ?_⟩
      · simp only [step, on_connect, ht, List.append_assoc]
      · right
        rw [written_append, written_append, h3]
        split <;> rfl
      · rw [callCount_append, callCount_append, h1]
        split <;> simp [callCount, Effect.isCall]
    | _ =>
      refine ⟨[Effect.Set_readyState READY_STATE_OPEN], ?_, Or.inr rfl, by simp [callCount, Effect.isCall]⟩
      simp only [step, on_connect]
      rw [OnOpen_not_function h c (by rw [hc]; rfl)]
      rfl
  | write arg =>
    refine ⟨_, Write_log h c arg, Or.inl ?_, ?_⟩
    · split <;> rfl
    · split <;> simp [callCount, Effect.isCall]
  | disconnect => exact ⟨_, Disconnect_log c, Or.inl rfl, by simp [callCount, Effect.isCall]⟩
  | finalize => exact ⟨_, destructor_log c, Or.inl rfl, by simp [callCount, Effect.isCall]⟩
  | assign_onopen v => exact ⟨[], by simp [step], Or.inl rfl, by simp [callCount]⟩
  | assign_readyState v => exact ⟨[], by simp [step], Or.inl rfl, by simp [callCount]⟩

/-- A run only appends to the log. -/
theorem run_log_prefix (h : Host) (steps : List Step) (c : TCPClient) :
    c.log <+: (run h c steps).log := by
  induction steps generalizing c with
  | nil => exact List.prefix_refl _
  | cons s steps ih =>
    obtain ⟨t, ht, _⟩ := step_log h c s
    rw [run_cons]
    exact List.IsPrefix.trans ⟨t, ht.symm⟩ (ih (step h c s))

/-! ## Construction -/

/-- Whatever its outcome, `Connect` leaves `readyState` at
`READY_STATE_CONNECTING`, assigns it once and calls no host function. -/
theorem Connect_created (h : Host) (c : TCPClient) (host port : List Nat) :
    (c.Connect h host port).2.readyState = readyState_CONNECTING
      ∧ written (c.Connect h host port).2.log = written c.log ++ [READY_STATE_CONNECTING]
      ∧ callCount (c.Connect h host port).2.log = callCount c.log := by
  unfold TCPClient.Connect
  simp only [TCPClient.emit, TCPClient.Set_readyState]
  split
  · refine ⟨rfl, ?_, ?_⟩
    · simp only [written_append]; simp [written]
    · simp [callCount_append, callCount, Effect.isCall]
  · split
    · refine ⟨rfl, ?_, ?_⟩
      · simp only [written_append]; simp [written]
      · simp [callCount_append, callCount, Effect.isCall]
    · refine ⟨rfl, ?_, ?_⟩
      · simp only [written_append]; simp [written]
      · simp [callCount_append, callCount, Effect.isCall]

/-- The client `newTCPClient` creates is the one `Connect` leaves. -/
theorem newTCPClient_client (h : Host) (args : Arguments) (c : TCPClient)
    (hc : (newTCPClient h args).2 = some c) :
    c = ((TCPClient.new args.This).Connect h (h.AsciiValue (args.get 0))
          (h.AsciiValue (args.get 1))).2 := by
  unfold newTCPClient at hc
  split at hc
  · simp at hc
  · dsimp only at hc
    split at hc <;> simp at hc <;> exact hc.symm

/-- Whatever the outcome, a client created by `newTCPClient` has had
`readyState` assigned once, to `READY_STATE_CONNECTING`, and no host function
has been called. -/
theorem newTCPClient_created (h : Host) (args : Arguments) (c : TCPClient)
    (hc : (newTCPClient h args).2 = some c) :
    c.readyState = readyState_CONNECTING ∧ written c.log = [READY_STATE_CONNECTING]
      ∧ callCount c.log = 0 := by
  rw [newTCPClient_client h args c hc]
  obtain ⟨h1, h2, h3⟩ := Connect_created h (TCPClient.new args.This)
    (h.AsciiValue (args.get 0)) (h.AsciiValue (args.get 1))
  exact ⟨h1, by rw [h2]; rfl, by rw [h3]; rfl⟩

/-- On the path where resolution and the native connect both succeed the
client is left connecting with its socket attached, and the value handed back
is the handle exactly when the fall-through value of `Connect` is zero. -/
theorem newTCPClient_success (h : Host) (args : Arguments) (hlen : 1 ≤ args.Length)
    (hres : h.getaddrinfo (h.AsciiValue (args.get 0)) (h.AsciiValue (args.get 1)) = 0)
    (hcon : h.oi_socket_connect (h.AsciiValue (args.get 0)) (h.AsciiValue (args.get 1)) = 0) :
    ∃ c, newTCPClient h args
        = (if h.fallthrough ≠ 0 then JsValue.undefined else JsValue.object args.This.id, some c)
      ∧ c.readyState = readyState_CONNECTING
      ∧ c.log.getLast? = some Effect.freeaddrinfo
      ∧ Effect.oi_socket_attach ∈ c.log := by
  unfold newTCPClient
  rw [if_neg (by omega)]
  simp only [TCPClient.Connect, hres, hcon, ne_eq, not_true_eq_false, if_false]
  split
  · exact ⟨_, rfl, rfl, by simp [TCPClient.emit], by simp [TCPClient.emit]⟩
  · exact ⟨_, rfl, rfl, by simp [TCPClient.emit], by simp [TCPClient.emit]⟩

/-! ## Facts about runs -/

theorem run_disconnects (h : Host) (n : Nat) (c : TCPClient) :
    (run h c (List.replicate n Step.disconnect)).log
        = c.log ++ List.replicate n Effect.oi_socket_close
      ∧ (run h c (List.replicate n Step.disconnect)).readyState = c.readyState := by
  induction n generalizing c with
  | zero => simp [run]
  | succ n ih =>
    obtain ⟨h1, h2⟩ := ih (step h c Step.disconnect)
    rw [List.replicate_succ, run_cons, h1, h2]
    refine ⟨?_, rfl⟩
    simp [step, DisconnectCallback, Disconnect_log, List.replicate_succ]

theorem run_writes (h : Host) (args : List JsValue) (c : TCPClient) :
    requests (run h c (args.map Step.write)).log = requests c.log ++
      args.map (fun a => if a = JsValue.null then Request.eof
        else Request.payload ((ToString h a).map (fun ch => ch % 256))) := by
  induction args generalizing c with
  | nil => simp [run]
  | cons a args ih =>
    rw [List.map_cons, run_cons, ih]
    simp only [step, WriteCallback, List.getD_cons_zero, Write_log, requests_append,
      List.map_cons, List.append_assoc]
    congr 1
    split <;> simp [requests, Effect.request]

/-- Along a run the wrapper assigns `readyState` only to `READY_STATE_OPEN`. -/
theorem run_written (h : Host) (steps : List Step) (c : TCPClient) :
    ∃ k, written (run h c steps).log = written c.log ++ List.replicate k READY_STATE_OPEN := by
  induction steps generalizing c with
  | nil => exact ⟨0, by simp [run]⟩
  | cons s steps ih =>
    obtain ⟨t, ht, hw, _⟩ := step_log h c s
    obtain ⟨k, hk⟩ := ih (step h c s)
    rw [run_cons, hk, ht, written_append]
    rcases hw with hw | hw
    · exact ⟨k, by rw [hw, List.append_nil]⟩
    · refine ⟨k + 1, ?_⟩
      rw [hw, List.append_assoc, List.replicate_succ]
      rfl

/-- Along a run host functions are called at most once per connect event. -/
theorem run_callCount (h : Host) (steps : List Step) (c : TCPClient) :
    callCount (run h c steps).log ≤ callCount c.log + steps.count Step.connect := by
  induction steps generalizing c with
  | nil => simp [run]
  | cons s steps ih =>
    obtain ⟨t, ht, _, hcall⟩ := step_log h c s
    have := ih (step h c s)
    rw [ht, callCount_append] at this
    rw [run_cons, List.count_cons]
    by_cases hs : s = Step.connect
    · simp only [hs, if_true] at hcall
      simp only [hs, beq_self_eq_true, if_true] at this ⊢
      omega
    · simp only [hs, if_false] at hcall
      have hb : (s == Step.connect) = false := by simpa using hs
      simp only [hb] at this ⊢
      simp at this ⊢
      omega

/-! ## Claims -/

/-- C1, counterexample.  On a freshly connected client no close has been
requested; two `disconnect()` calls request the native close twice, and one
`disconnect()` followed by finalization of the handle also requests it twice,
so the close is not initiated exactly once. -/
theorem C1_repeated_disconnect_closes_again :
    closeCount connectingClient.log = 0
      ∧ closeCount (run quietHost connectingClient [Step.disconnect, Step.disconnect]).log = 2
      ∧ closeCount (run quietHost connectingClient [Step.disconnect, Step.finalize]).log = 2 := by
  decide

/-- C1, as amended.  Every `disconnect()` call requests the native close once,
and so does the destructor: after `n` calls of `disconnect()`, followed or not
by finalization of the handle, the number of `oi_socket_close` requests has
grown by `n`, plus one if the handle was finalized. -/
theorem C1_close_requested_by_every_disconnect (h : Host) (c : TCPClient) (n : Nat)
    (fin : Bool) :
    closeCount (run h c (List.replicate n Step.disconnect
        ++ (if fin then [Step.finalize] else []))).log
      = closeCount c.log + n + (if fin then 1 else 0) := by
  rw [run_append]
  cases fin with
  | false =>
    simp only [Bool.false_eq_true, if_false, run, List.foldl_nil]
    rw [← run, (run_disconnects h n c).1, closeCount_append]
    simp [closeCount]
  | true =>
    simp only [if_true, run, List.foldl_cons, List.foldl_nil, step, client_destroy]
    rw [destructor_log, ← run, (run_disconnects h n c).1, closeCount_append, closeCount_append]
    simp [closeCount]

/-- C2, counterexample.  The client created by `new TCPClient("localhost",
"80")` has `readyState` 0; after one `disconnect()`, and after two in
succession, `readyState` is still 0, not 2. -/
theorem C2_disconnect_keeps_connecting :
    newTCPClient quietHost sampleArgs = (JsValue.object 1, some connectingClient)
      ∧ (run quietHost connectingClient [Step.disconnect]).readyState = JsValue.integer 0
      ∧ (run quietHost connectingClient [Step.disconnect, Step.disconnect]).readyState
          = JsValue.integer 0
      ∧ JsValue.integer 0 ≠ readyState_CLOSED := by
  decide

/-- C2, as amended.  `disconnect()`, called any number of times, leaves the
handle's `readyState` property as it was and makes the wrapper assign nothing
to it. -/
theorem C2_disconnect_leaves_readyState (h : Host) (c : TCPClient) (n : Nat) :
    (run h c (List.replicate n Step.disconnect)).readyState = c.readyState
      ∧ written (run h c (List.replicate n Step.disconnect)).log = written c.log := by
  refine ⟨(run_disconnects h n c).2, ?_⟩
  rw [(run_disconnects h n c).1, written_append]
  have : written (List.replicate n Effect.oi_socket_close) = [] := by
    induction n with
    | zero => rfl
    | succ n ih => rw [List.replicate_succ]; exact ih
  rw [this, List.append_nil]

/-- C3, counterexample.  After `disconnect()` on a connecting client whose
`onopen` is a function, the connect event still changes `readyState` from 0 to
1 and calls `onopen`; and two connect events call `onopen` twice. -/
theorem C3_connect_after_disconnect_opens :
    (run quietHost connectingClient [Step.disconnect]).readyState = JsValue.integer 0
      ∧ (run quietHost connectingClient [Step.disconnect, Step.connect]).readyState
          = JsValue.integer 1
      ∧ callCount (run quietHost connectingClient [Step.disconnect]).log = 0
      ∧ callCount (run quietHost connectingClient [Step.disconnect, Step.connect]).log = 1
      ∧ callCount (run quietHost connectingClient [Step.connect, Step.connect]).log = 2 := by
  decide

/-- C3, as amended.  A connect event delivered after `disconnect()` is handled
like any other: the wrapper assigns `READY_STATE_OPEN` to `readyState` and, if
`onopen` is a function, calls it once.  Over every sequence of steps, host
functions are called at most once per delivered connect event. -/
theorem C3_onopen_once_per_connect_event (h : Host) (c : TCPClient) :
    written (run h c [Step.disconnect, Step.connect]).log = written c.log ++ [READY_STATE_OPEN]
      ∧ callCount (run h c [Step.disconnect, Step.connect]).log
          = callCount c.log + (if c.onopen.IsFunction then 1 else 0)
      ∧ ∀ steps : List Step,
          callCount (run h c steps).log ≤ callCount c.log + steps.count Step.connect := by
  refine ⟨?_, ?_, fun steps => run_callCount h steps c⟩
  · cases hc : c.onopen with
    | function f =>
      obtain ⟨t, ht, _, _, h3⟩ := OnOpen_function_log h c.Disconnect f hc
      simp only [run, List.foldl_cons, List.foldl_nil, step, on_connect, DisconnectCallback]
      rw [ht, written_append, written_append, written_append, h3, Disconnect_log,
        written_append]
      split <;> simp [written]
    | _ =>
      simp only [run, List.foldl_cons, List.foldl_nil, step, on_connect, DisconnectCallback]
      rw [OnOpen_not_function h c.Disconnect (by
        show JsValue.IsFunction c.onopen = false
        rw [hc]; rfl)]
      simp [TCPClient.Set_readyState, TCPClient.Disconnect, TCPClient.emit, written_append,
        written]
  · cases hc : c.onopen with
    | function f =>
      obtain ⟨t, ht, h1, _, _⟩ := OnOpen_function_log h c.Disconnect f hc
      simp only [run, List.foldl_cons, List.foldl_nil, step, on_connect, DisconnectCallback]
      rw [ht, callCount_append, callCount_append, callCount_append, h1, Disconnect_log,
        callCount_append]
      split <;> simp [callCount, Effect.isCall, JsValue.IsFunction]
    | _ =>
      simp only [run, List.foldl_cons, List.foldl_nil, step, on_connect, DisconnectCallback]
      rw [OnOpen_not_function h c.Disconnect (by
        show JsValue.IsFunction c.onopen = false
        rw [hc]; rfl)]
      simp [TCPClient.Set_readyState, TCPClient.Disconnect, TCPClient.emit, callCount_append,
        callCount, Effect.isCall, JsValue.IsFunction]

/-- C4, failing input.  Resolution and the native connect both succeed for
`new TCPClient("localhost", "80")`, the client is left connecting with its
socket attached, and yet, because `Connect` ends without a `return` and its
caller reads a non-zero value, `newTCPClient` hands back `undefined` instead
of the handle. -/
theorem C4_constructor_hands_back_undefined :
    residueHost.getaddrinfo (residueHost.AsciiValue (sampleArgs.get 0))
        (residueHost.AsciiValue (sampleArgs.get 1)) = 0
      ∧ residueHost.oi_socket_connect (residueHost.AsciiValue (sampleArgs.get 0))
        (residueHost.AsciiValue (sampleArgs.get 1)) = 0
      ∧ newTCPClient residueHost sampleArgs = (JsValue.undefined, some connectingClient)
      ∧ connectingClient.readyState = readyState_CONNECTING
      ∧ Effect.oi_socket_attach ∈ connectingClient.log := by
  decide

/-- C5, counterexample.  When the host name does not resolve, and when the
native connect fails, construction ends with `readyState` 0, not 2. -/
theorem C5_failed_construction_keeps_connecting :
    (newTCPClient unresolvableHost sampleArgs).2.map TCPClient.readyState
        = some (JsValue.integer 0)
      ∧ (newTCPClient refusingHost sampleArgs).2.map TCPClient.readyState
        = some (JsValue.integer 0)
      ∧ JsValue.integer 0 ≠ readyState_CLOSED := by
  decide

/-- C5, as amended.  When address resolution fails, or the native connect
fails, construction ends with `readyState` equal to 0 (CONNECTING), assigned
once; the wrapper's last act is the `perror` diagnostic, the socket has not
been attached to the event loop, and `newTCPClient` hands back `undefined`. -/
theorem C5_failure_leaves_connecting (h : Host) (args : Arguments) (hlen : 1 ≤ args.Length)
    (hfail : h.getaddrinfo (h.AsciiValue (args.get 0)) (h.AsciiValue (args.get 1)) ≠ 0
      ∨ h.oi_socket_connect (h.AsciiValue (args.get 0)) (h.AsciiValue (args.get 1)) ≠ 0) :
    ∃ c what, newTCPClient h args = (JsValue.undefined, some c)
      ∧ c.readyState = readyState_CONNECTING
      ∧ written c.log = [READY_STATE_CONNECTING]
      ∧ c.log.getLast? = some (Effect.perror what)
      ∧ Effect.oi_socket_attach ∉ c.log := by
  unfold newTCPClient
  rw [if_neg (by omega)]
  by_cases hres : h.getaddrinfo (h.AsciiValue (args.get 0)) (h.AsciiValue (args.get 1)) = 0
  · have hcon :
        h.oi_socket_connect (h.AsciiValue (args.get 0)) (h.AsciiValue (args.get 1)) ≠ 0 := by
      rcases hfail with hf | hf
      · exact absurd hres hf
      · exact hf
    simp only [TCPClient.Connect, hres, hcon, ne_eq, not_true_eq_false, not_false_eq_true,
      if_false, if_true]
    exact ⟨_, "oi_socket_connect", rfl, rfl, rfl, by simp [TCPClient.emit],
      by simp [TCPClient.emit, TCPClient.Set_readyState, TCPClient.new]⟩
  · simp only [TCPClient.Connect, hres, ne_eq, not_false_eq_true, if_true]
    exact ⟨_, "getaddrinfo", rfl, rfl, rfl, by simp [TCPClient.emit],
      by simp [TCPClient.emit, TCPClient.Set_readyState, TCPClient.new]⟩

/-- C5, witness: a host name that does not resolve. -/
theorem C5_failure_leaves_connecting_witness :
    ∃ c what, newTCPClient unresolvableHost sampleArgs = (JsValue.undefined, some c)
      ∧ c.readyState = readyState_CONNECTING
      ∧ written c.log = [READY_STATE_CONNECTING]
      ∧ c.log.getLast? = some (Effect.perror what)
      ∧ Effect.oi_socket_attach ∉ c.log :=
  C5_failure_leaves_connecting unresolvableHost sampleArgs (by decide) (Or.inl (by decide))

/-- C6.  On delivery of the connect event the wrapper first assigns
`READY_STATE_OPEN` to `readyState`.  If `onopen` is a function it then calls
that function, with the handle as receiver and no arguments, and this is the
only host call of the event: the function starts with `readyState` equal to 1,
and unless it assigns the property itself `readyState` is 1 afterwards.  If
`onopen` is not a function the assignment is all that happens.  This holds in
every state of the client, the connecting state included. -/
theorem C6_connect_event_opens_then_calls_onopen (h : Host) (c : TCPClient) :
    (∀ f, c.onopen = JsValue.function f →
        (c.log ++ [Effect.Set_readyState READY_STATE_OPEN, Effect.Call f c.js_client 0])
            <+: (on_connect h c).log
          ∧ callCount (on_connect h c).log = callCount c.log + 1
          ∧ written (on_connect h c).log = written c.log ++ [READY_STATE_OPEN]
          ∧ (c.entered f).readyState = readyState_OPEN
          ∧ ((h.Call f (c.entered f)).readyState = (c.entered f).readyState →
              (on_connect h c).readyState = readyState_OPEN))
      ∧ (c.onopen.IsFunction = false →
          on_connect h c = { c with readyState := readyState_OPEN
                                    log := c.log ++ [Effect.Set_readyState READY_STATE_OPEN] }) := by
  constructor
  · intro f hf
    obtain ⟨t, ht, h1, _, h3⟩ := OnOpen_function_log h c f hf
    obtain ⟨_, p2, _⟩ := OnOpen_function_props h c f hf
    refine ⟨?_, ?_, ?_, rfl, ?_⟩
    · refine ⟨t ++ (if (h.Call f (c.entered f)).HasCaught then [Effect.node_fatal_exception]
        else []), ?_⟩
      simp only [on_connect]
      rw [ht]
      simp only [List.append_assoc]
    · simp only [on_connect]
      rw [ht, callCount_append, callCount_append, callCount_append, h1]
      split <;> simp [callCount, Effect.isCall]
    · simp only [on_connect]
      rw [ht, written_append, written_append, written_append, h3]
      split <;> simp [written]
    · intro hkeep
      simp only [on_connect]
      rw [p2, hkeep]
      rfl
  · intro hf
    simp only [on_connect]
    rw [OnOpen_not_function h c hf]
    rfl

/-- C6, witness: the connect event on a connecting client whose `onopen` is
host function 7, and on the same client with `onopen` undefined. -/
theorem C6_connect_event_opens_then_calls_onopen_witness :
    ((connectingClient.log ++ [Effect.Set_readyState READY_STATE_OPEN, Effect.Call 7 1 0])
          <+: (on_connect throwingHost connectingClient).log
        ∧ callCount (on_connect throwingHost connectingClient).log
            = callCount connectingClient.log + 1
        ∧ written (on_connect throwingHost connectingClient).log
            = written connectingClient.log ++ [READY_STATE_OPEN]
        ∧ (connectingClient.entered 7).readyState = readyState_OPEN
        ∧ (on_connect throwingHost connectingClient).readyState = readyState_OPEN)
      ∧ on_connect throwingHost { connectingClient with onopen := JsValue.undefined }
          = { connectingClient with
                onopen := JsValue.undefined
                readyState := readyState_OPEN
                log := connectingClient.log ++ [Effect.Set_readyState READY_STATE_OPEN] } :=
  ⟨let p := (C6_connect_event_opens_then_calls_onopen throwingHost connectingClient).1 7 rfl
   ⟨p.1, p.2.1, p.2.2.1, p.2.2.2.1, p.2.2.2.2 rfl⟩,
   (C6_connect_event_opens_then_calls_onopen throwingHost
      { connectingClient with onopen := JsValue.undefined }).2 rfl⟩

/-- C7.  For every sequence of `write(arg)` calls the requests handed to the
native socket are, in the order of the calls, one request per call: a
half-close request for `write(null)` and a payload request carrying the text of
the argument for every other argument.  No close request is among them. -/
theorem C7_write_requests_in_call_order (h : Host) (c : TCPClient) (args : List JsValue) :
    requests (run h c (args.map Step.write)).log = requests c.log ++
        args.map (fun a => if a = JsValue.null then Request.eof
          else Request.payload ((ToString h a).map (fun ch => ch % 256)))
      ∧ closeCount (run h c (args.map Step.write)).log = closeCount c.log := by
  refine ⟨run_writes h args c, ?_⟩
  induction args generalizing c with
  | nil => rfl
  | cons a args ih =>
    rw [List.map_cons, run_cons, ih]
    simp only [step, WriteCallback, List.getD_cons_zero, Write_log, closeCount_append]
    split <;> simp [closeCount]

/-- C8.  For a text argument `s`, `write` allocates a buffer of `s.length`
bytes and hands the native socket a payload of exactly that length; when every
character of `s` is ASCII the payload is `s` itself, character for character.
The request carries the bytes, not the string: whatever happens to the client
afterwards, the allocation and the payload stay in the log as they were. -/
theorem C8_write_copies_text (h : Host) (c : TCPClient) (s : List Nat) :
    ∃ buf, (c.Write h (JsValue.string s)).log
          = c.log ++ [Effect.oi_buf_new2 s.length, Effect.oi_socket_write buf]
      ∧ buf.length = s.length
      ∧ ((∀ ch ∈ s, ch < 128) → buf = s)
      ∧ ∀ steps : List Step,
          (c.log ++ [Effect.oi_buf_new2 s.length, Effect.oi_socket_write buf])
            <+: (run h (c.Write h (JsValue.string s)) steps).log := by
  have hlog : (c.Write h (JsValue.string s)).log
      = c.log ++ [Effect.oi_buf_new2 s.length,
          Effect.oi_socket_write (s.map (fun ch => ch % 256))] := by
    rw [Write_log]
    simp [ToString]
  refine ⟨s.map (fun ch => ch % 256), hlog, by simp, ?_, ?_⟩
  · intro hs
    conv_rhs => rw [← List.map_id s]
    apply List.map_congr_left
    intro ch hch
    have := hs ch hch
    simp only [id]
    omega
  · intro steps
    rw [← hlog]
    exact run_log_prefix h steps _

/-- C8, witness: `write("PING")` on a connecting client, followed by a
half-close, a disconnect and finalization. -/
theorem C8_write_copies_text_witness :
    ∃ buf, (connectingClient.Write quietHost (JsValue.string [80, 73, 78, 71])).log
          = connectingClient.log ++ [Effect.oi_buf_new2 4, Effect.oi_socket_write buf]
      ∧ buf.length = 4
      ∧ buf = [80, 73, 78, 71]
      ∧ (connectingClient.log ++ [Effect.oi_buf_new2 4, Effect.oi_socket_write buf])
          <+: (run quietHost (connectingClient.Write quietHost (JsValue.string [80, 73, 78, 71]))
                [Step.write JsValue.null, Step.disconnect, Step.finalize]).log :=
  let ⟨buf, p1, p2, p3, p4⟩ := C8_write_copies_text quietHost connectingClient [80, 73, 78, 71]
  ⟨buf, p1, p2, p3 (by decide), p4 _⟩

/-- C9.  `OnOpen` is a total function of the client, so it always returns to
`on_connect`.  When `onopen` is a function, `node_fatal_exception` is called
once if the function threw and not at all if it did not, and it is then the
last thing the wrapper does; when `onopen` is not a function it is not
called. -/
theorem C9_callback_exception_reported_once (h : Host) (c : TCPClient) :
    (∀ f, c.onopen = JsValue.function f →
        fatalCount (on_connect h c).log
            = fatalCount c.log + (if (h.Call f (c.entered f)).HasCaught then 1 else 0)
          ∧ ((h.Call f (c.entered f)).HasCaught = true →
              (on_connect h c).log.getLast? = some Effect.node_fatal_exception))
      ∧ (c.onopen.IsFunction = false →
          fatalCount (on_connect h c).log = fatalCount c.log) := by
  constructor
  · intro f hf
    obtain ⟨t, ht, _, h2, _⟩ := OnOpen_function_log h c f hf
    simp only [on_connect]
    rw [ht]
    constructor
    · rw [fatalCount_append, fatalCount_append, fatalCount_append, h2]
      split <;> simp [fatalCount]
    · intro hthrew
      rw [hthrew, if_pos rfl, List.getLast?_append]
      rfl
  · intro hf
    simp only [on_connect]
    rw [OnOpen_not_function h c hf]
    simp [TCPClient.Set_readyState, fatalCount]

/-- C9, witness: a callback that writes, disconnects and throws is reported
once; a callback that returns is not reported; a handle without `onopen`
reports nothing. -/
theorem C9_callback_exception_reported_once_witness :
    (fatalCount (on_connect throwingHost connectingClient).log
          = fatalCount connectingClient.log + 1
        ∧ (on_connect throwingHost connectingClient).log.getLast?
            = some Effect.node_fatal_exception)
      ∧ fatalCount (on_connect quietHost connectingClient).log
          = fatalCount connectingClient.log + 0
      ∧ fatalCount (on_connect throwingHost
            { connectingClient with onopen := JsValue.undefined }).log
          = fatalCount connectingClient.log :=
  ⟨let p := (C9_callback_exception_reported_once throwingHost connectingClient).1 7 rfl
   ⟨p.1, p.2 rfl⟩,
   ((C9_callback_exception_reported_once quietHost connectingClient).1 7 rfl).1,
   (C9_callback_exception_reported_once throwingHost
      { connectingClient with onopen := JsValue.undefined }).2 rfl⟩

/-- C10.  For a client created by `newTCPClient`, along every sequence of
steps (connect events, writes, disconnects, finalization, host assignments) the
`readyState` values assigned by the wrapper are 0 once, at construction,
followed only by 1: the sequence never decreases, 0 is not assigned again after
a 1, and 2 is never assigned. -/
theorem C10_written_readyState_monotonic (h : Host) (args : Arguments) (c : TCPClient)
    (hc : (newTCPClient h args).2 = some c) (steps : List Step) :
    (∃ k, written (run h c steps).log
        = READY_STATE_CONNECTING :: List.replicate k READY_STATE_OPEN)
      ∧ List.Pairwise (fun a b => a ≤ b) (written (run h c steps).log)
      ∧ READY_STATE_CLOSED ∉ written (run h c steps).log := by
  obtain ⟨k, hk⟩ := run_written h steps c
  rw [(newTCPClient_created h args c hc).2.1] at hk
  rw [hk]
  refine ⟨⟨k, rfl⟩, ?_, ?_⟩
  · simp only [List.singleton_append, List.pairwise_cons]
    refine ⟨fun b hb => ?_, ?_⟩
    · rw [List.eq_of_mem_replicate hb]; decide
    · rw [List.pairwise_replicate]
      exact Or.inr (le_refl _)
  · simp only [List.singleton_append, List.mem_cons, not_or]
    refine ⟨by decide, fun hmem => ?_⟩
    have := List.eq_of_mem_replicate hmem
    exact absurd this (by decide)

/-- C10, witness: a run with two connect events, a throwing callback that
writes and disconnects, and finalization. -/
theorem C10_written_readyState_monotonic_witness :
    (∃ k, written (run throwingHost connectingClient
          [Step.connect, Step.write JsValue.null, Step.connect, Step.disconnect,
           Step.finalize]).log
        = READY_STATE_CONNECTING :: List.replicate k READY_STATE_OPEN)
      ∧ List.Pairwise (fun a b => a ≤ b) (written (run throwingHost connectingClient
          [Step.connect, Step.write JsValue.null, Step.connect, Step.disconnect,
           Step.finalize]).log)
      ∧ READY_STATE_CLOSED ∉ written (run throwingHost connectingClient
          [Step.connect, Step.write JsValue.null, Step.connect, Step.disconnect,
           Step.finalize]).log :=
  C10_written_readyState_monotonic throwingHost sampleArgs connectingClient (by decide) _

end NodeTcp
